import Mathlib

/-!
Shallow embedding of the adaptive performance / quality subsystem of the
3D-portfolio repository: quality tiers, the FPS-driven tier adjustment,
the scene store's performance setters, distance-based LOD selection with
hysteresis, the frame timers, the capability probes, the object pool and
the frustum culler.  Numeric values (JS `number`) are modelled as `ℚ`,
counters as `Nat`/`ℤ`, and code that can throw as `Except Unit`.
-/

/-- Rendering quality tier (`'low' | 'medium' | 'high'` in the source). -/
inductive Quality
  | low
  | medium
  | high
deriving DecidableEq, Repr

/-- Device class as returned by `deviceCapabilities.getDeviceType`. -/
inductive DeviceType
  | mobile
  | tablet
  | desktop
deriving DecidableEq, Repr

/- ------------------------------------------------------------------
   performanceOptimizer.adaptiveQuality (src/src/utils/performanceUtils.ts)
   ------------------------------------------------------------------ -/

/-- One evaluation of `performanceOptimizer.adaptiveQuality.update`:
`if (fps < target - tolerance)` step the tier down (`high→medium`,
`medium→low`), `else if (fps > target + tolerance)` step it up
(`low→medium`, `medium→high`), otherwise keep it.  `target = 60` and
`tolerance = 5` in the source object; they are passed as parameters here. -/
def adaptiveUpdate (target tolerance : ℚ) (current : Quality) (fps : ℚ) : Quality :=
  if fps < target - tolerance then
    match current with
    | Quality.high => Quality.medium
    | Quality.medium => Quality.low
    | Quality.low => Quality.low
  else if target + tolerance < fps then
    match current with
    | Quality.low => Quality.medium
    | Quality.medium => Quality.high
    | Quality.high => Quality.high
  else current

/-- Stepping down exactly one tier, as the spec words it:
`high→medium`, `medium→low`, `low` stays `low`. -/
def qStepDown : Quality → Quality
  | Quality.high => Quality.medium
  | Quality.medium => Quality.low
  | Quality.low => Quality.low

/-- Stepping up exactly one tier, as the spec words it:
`low→medium`, `medium→high`, `high` stays `high`. -/
def qStepUp : Quality → Quality
  | Quality.low => Quality.medium
  | Quality.medium => Quality.high
  | Quality.high => Quality.high

/-- Adjacent-tier constraint on two consecutive tier values: the pair is
never a direct `low`/`high` jump in either direction. -/
def adjacentOk (a b : Quality) : Prop :=
  ¬(a = Quality.low ∧ b = Quality.high) ∧ ¬(a = Quality.high ∧ b = Quality.low)

instance (a b : Quality) : Decidable (adjacentOk a b) := by
  unfold adjacentOk; infer_instance

/- ------------------------------------------------------------------
   Scene store (src/unnamed: zustand `useSceneStore`)
   ------------------------------------------------------------------ -/

/-- Player sub-state of the scene store. -/
structure PlayerState where
  position : ℚ × ℚ × ℚ
  rotation : ℚ × ℚ × ℚ
  velocity : ℚ × ℚ × ℚ
  isMoving : Bool
  isJumping : Bool
  firstPerson : Bool
deriving DecidableEq, Repr

/-- Performance sub-state of the scene store. -/
structure PerformanceState where
  fps : ℚ
  quality : Quality
  autoQuality : Bool
deriving DecidableEq, Repr

/-- UI sub-state of the scene store. -/
structure UIState where
  showHUD : Bool
  showMenu : Bool
  showLoading : Bool
  loadingProgress : ℚ
  activeHologram : Option String
  pointerLocked : Bool
deriving DecidableEq, Repr

/-- Full scene-store state. -/
structure SceneState where
  player : PlayerState
  performance : PerformanceState
  ui : UIState
deriving DecidableEq, Repr

/-- `initialPlayerState` from the store module. -/
def initialPlayerState : PlayerState :=
  { position := (0, 2, 10), rotation := (0, 0, 0), velocity := (0, 0, 0),
    isMoving := false, isJumping := false, firstPerson := true }

/-- `initialPerformanceState` from the store module: fps 60, quality
`high`, automatic adjustment enabled. -/
def initialPerformanceState : PerformanceState :=
  { fps := 60, quality := Quality.high, autoQuality := true }

/-- `initialUIState` from the store module. -/
def initialUIState : UIState :=
  { showHUD := true, showMenu := false, showLoading := true,
    loadingProgress := 0, activeHologram := none, pointerLocked := false }

/-- The store's `setFPS` action: records the new fps and, when
`autoQuality` is on, applies the else-if chain of fixed-threshold quality
changes (`fps<30 ∧ high → medium`, `fps<20 ∧ medium → low`,
`fps>50 ∧ medium → high`, `fps>40 ∧ low → medium`).  Only the
`performance` slice of the returned partial state differs; zustand's
`set` keeps the other top-level keys. -/
def setFPS (s : SceneState) (fps : ℚ) : SceneState :=
  let q := s.performance.quality
  let q' :=
    if s.performance.autoQuality then
      if fps < 30 ∧ q = Quality.high then Quality.medium
      else if fps < 20 ∧ q = Quality.medium then Quality.low
      else if 50 < fps ∧ q = Quality.medium then Quality.high
      else if 40 < fps ∧ q = Quality.low then Quality.medium
      else q
    else q
  { s with performance := { s.performance with fps := fps, quality := q' } }

/-- The store's `setQuality` action. -/
def setQuality (s : SceneState) (quality : Quality) : SceneState :=
  { s with performance := { s.performance with quality := quality } }

/-- The store's `setAutoQuality` action. -/
def setAutoQuality (s : SceneState) (autoQuality : Bool) : SceneState :=
  { s with performance := { s.performance with autoQuality := autoQuality } }

/- ------------------------------------------------------------------
   LODComponent (src/unnamed, react-three LOD with hysteresis)
   ------------------------------------------------------------------ -/

/-- Quality-based distance multiplier used by `LODComponent`:
`quality === 'high' ? 1.2 : quality === 'medium' ? 1.0 : 0.8`. -/
def qualityMultiplier : Quality → ℚ
  | Quality.high => 12 / 10
  | Quality.medium => 1
  | Quality.low => 8 / 10

/-- The `for` loop of `LODComponent`: walk the adjusted thresholds with
index `i`, setting the candidate level to `i + 1` whenever
`distance > adjustedDistances[i]`. -/
def computeNewLODAux (distance : ℚ) : List ℚ → Nat → Nat → Nat
  | [], _, acc => acc
  | t :: rest, i, acc =>
      computeNewLODAux distance rest (i + 1) (if t < distance then i + 1 else acc)

/-- Naive target level: result of the threshold-walking loop started at
index 0 with candidate level 0. -/
def computeNewLOD (adjusted : List ℚ) (distance : ℚ) : Nat :=
  computeNewLODAux distance adjusted 0 0

/-- One `useFrame` evaluation of `LODComponent`: scale the thresholds by
the tier multiplier, compute the naive target level, and if it differs
from the committed level apply the hysteresis gate with threshold
`adjustedDistances[min newLOD (len-1)]` widened by `(1 + hysteresis)`
when moving to a higher index and narrowed by `(1 - hysteresis)` when
moving to a lower index; the committed change is clamped to the number
of children. -/
def lodUpdate (quality : Quality) (distances : List ℚ) (hysteresis : ℚ)
    (childCount : Nat) (currentLOD : Nat) (distance : ℚ) : Nat :=
  let adjusted := distances.map (fun d => d * qualityMultiplier quality)
  let newLOD := computeNewLOD adjusted distance
  if newLOD ≠ currentLOD then
    let idx := min newLOD (adjusted.length - 1)
    let threshold := adjusted.getD idx (adjusted.getD (adjusted.length - 1) 0)
    let hystThreshold :=
      if currentLOD < newLOD then threshold * (1 + hysteresis)
      else threshold * (1 - hysteresis)
    if (currentLOD < newLOD ∧ hystThreshold < distance) ∨
       (newLOD < currentLOD ∧ distance < hystThreshold) then
      min newLOD (childCount - 1)
    else currentLOD
  else currentLOD

/- ------------------------------------------------------------------
   PerformanceMonitor (rolling-window frame timer, src/unnamed part)
   ------------------------------------------------------------------ -/

/-- State of the rolling-window `PerformanceMonitor` (its environment
passthrough fields — memory, draw calls, triangles — are outside the
timing claims and omitted). `fps` holds the rounded aggregate. -/
structure MonState where
  lastTime : ℚ
  frameTimes : List ℚ
  frameCount : Nat
  fps : ℤ
  frameTime : ℚ
deriving DecidableEq, Repr

/-- The per-call delta: `Math.max(0, now - this.lastTime)`. -/
def monDelta (lastTime now : ℚ) : ℚ := max 0 (now - lastTime)

/-- `calculateMetrics`: mean of the window (16 for an empty window),
`fps = Math.round(1000 / avg)` guarded to 0 when the mean is not
positive. -/
def calculateMetrics (s : MonState) : MonState :=
  let sum := s.frameTimes.sum
  let avgFrameTime : ℚ := if s.frameTimes.length ≠ 0 then sum / s.frameTimes.length else 16
  let fpsRaw : ℚ := if 0 < avgFrameTime then 1000 / avgFrameTime else 0
  { s with frameTime := avgFrameTime, fps := round fpsRaw }

/-- One `update` tick of `PerformanceMonitor`: clamp the delta at 0, push
it into the ring buffer (drop the oldest past 120 entries), bump the
frame counter, and recompute aggregates every 30th frame. -/
def monUpdate (s : MonState) (now : ℚ) : MonState :=
  let delta := monDelta s.lastTime now
  let ft0 := s.frameTimes ++ [delta]
  let ft := if 120 < ft0.length then ft0.tail else ft0
  let s' : MonState :=
    { s with lastTime := now, frameTimes := ft, frameCount := s.frameCount + 1 }
  if s'.frameCount % 30 == 0 ∧ 0 < s'.frameTimes.length then calculateMetrics s' else s'

/-- A monitor freshly started at time `t0` (`start()` resets the window
and the counter; the metrics record starts with `fps = 0`). -/
def monStart (t0 : ℚ) : MonState :=
  { lastTime := t0, frameTimes := [], frameCount := 0, fps := 0, frameTime := 0 }

/-- Run the monitor over a whole sequence of frame timestamps. -/
def monRun (t0 : ℚ) (timestamps : List ℚ) : MonState :=
  timestamps.foldl monUpdate (monStart t0)

/- ------------------------------------------------------------------
   performanceMonitor.endFrame (src/src/utils/performanceUtils.ts)
   ------------------------------------------------------------------ -/

/-- State of the simpler `performanceMonitor` object. -/
structure EFState where
  frameCount : Nat
  lastTime : ℚ
  fps : ℤ
  frameTime : ℚ
deriving DecidableEq, Repr

/-- `endFrame(startTime)` at wall-clock `currentTime`: record the raw
frame time (no clamp), bump the counter, and every 60th frame set
`fps = Math.round(60000 / (currentTime - lastTime))` and reset
`lastTime`. -/
def endFrame (s : EFState) (startTime currentTime : ℚ) : EFState :=
  let s' : EFState := { s with frameTime := currentTime - startTime,
                               frameCount := s.frameCount + 1 }
  if s'.frameCount % 60 == 0 then
    { s' with fps := round (60000 / (currentTime - s'.lastTime)), lastTime := currentTime }
  else s'

/- ------------------------------------------------------------------
   Capability probing (performanceUtils.deviceCapabilities and
   BrowserCompatibilityChecker.checkWebGLSupport)
   ------------------------------------------------------------------ -/

/-- JS `String.prototype.includes` restricted to what the probes use:
`leadsWith pat l` is "pat is a prefix of l". -/
def leadsWith : List Char → List Char → Bool
  | [], _ => true
  | _ :: _, [] => false
  | a :: as, b :: bs => a == b && leadsWith as bs

/-- `containsSub pat l`: some suffix of `l` starts with `pat`. -/
def containsSub (pat : List Char) : List Char → Bool
  | [] => leadsWith pat []
  | c :: rest => leadsWith pat (c :: rest) || containsSub pat rest

/-- The regex test `/android(?!.*mobile)/`: some occurrence of
`android` is not followed (anywhere later) by `mobile`. -/
def androidNotMobile : List Char → Bool
  | [] => false
  | c :: rest =>
      (leadsWith "android".data (c :: rest) &&
        !containsSub "mobile".data ((c :: rest).drop 7)) ||
      androidNotMobile rest

/-- The probing environment: everything the capability functions read
from the browser, including whether graphics-context creation throws. -/
structure Env where
  userAgent : String
  isBrowser : Bool
  contextThrows : Bool
  webgl1Available : Bool
  webgl2Available : Bool
  experimentalAvailable : Bool
  maxTextureSize : ℤ
  maxVertexAttribs : ℤ
  extensions : List String
  debugRenderer : Option String
  screenWidth : ℤ
  screenHeight : ℤ
deriving DecidableEq, Repr

/-- The three context names requested by the probes. -/
inductive ContextKind
  | webgl
  | webgl2
  | experimental
deriving DecidableEq, Repr

/-- Whether the environment would hand out a context of the given kind
(when creation does not throw). -/
def contextAvailable (env : Env) : ContextKind → Bool
  | ContextKind.webgl => env.webgl1Available
  | ContextKind.webgl2 => env.webgl2Available
  | ContextKind.experimental => env.experimentalAvailable

/-- `canvas.getContext(kind)`: throws (`Except.error`) when the
environment's context creation throws, otherwise the context or `null`. -/
def getContext (env : Env) (k : ContextKind) : Except Unit (Option Unit) :=
  if env.contextThrows then Except.error ()
  else Except.ok (if contextAvailable env k then some () else none)

/-- `deviceCapabilities.getDeviceType()`: lower-case the user agent and
apply the mobile/tablet substring tests (tablet wins over mobile,
otherwise desktop). -/
def getDeviceType (env : Env) : DeviceType :=
  let ua := env.userAgent.data.map Char.toLower
  let isMobile :=
    containsSub "android".data ua || containsSub "webos".data ua ||
    containsSub "iphone".data ua || containsSub "ipad".data ua ||
    containsSub "ipod".data ua || containsSub "blackberry".data ua ||
    containsSub "iemobile".data ua || containsSub "opera mini".data ua
  let isTablet := containsSub "ipad".data ua || androidNotMobile ua
  if isTablet then DeviceType.tablet
  else if isMobile then DeviceType.mobile
  else DeviceType.desktop

/-- Result record of the WebGL support probes. -/
structure WebGLSupport where
  webgl1 : Bool
  webgl2 : Bool
  maxTextureSize : ℤ
  maxVertexAttribs : ℤ
  extensions : List String
deriving DecidableEq, Repr

/-- `deviceCapabilities.getWebGLSupport()`: requests both context
generations with no try/catch, so a throwing `getContext` propagates;
parameters are queried from `gl2 || gl1` when one exists. -/
def getWebGLSupport (env : Env) : Except Unit WebGLSupport := do
  let gl1 ← getContext env ContextKind.webgl
  let gl2 ← getContext env ContextKind.webgl2
  let base : WebGLSupport :=
    { webgl1 := gl1.isSome, webgl2 := gl2.isSome,
      maxTextureSize := 0, maxVertexAttribs := 0, extensions := [] }
  match gl2 <|> gl1 with
  | some _ =>
      pure { base with maxTextureSize := env.maxTextureSize,
                       maxVertexAttribs := env.maxVertexAttribs,
                       extensions := env.extensions }
  | none => pure base

/-- Fallback tier of `getPerformanceTier` based on the device type. -/
def fallbackTier (env : Env) : Quality :=
  match getDeviceType env with
  | DeviceType.desktop => Quality.medium
  | DeviceType.tablet => Quality.medium
  | DeviceType.mobile => Quality.low

/-- `deviceCapabilities.getPerformanceTier()`: `getContext('webgl') ||
getContext('experimental-webgl')` with no try/catch (a throw
propagates); `low` when no context, else classify the unmasked renderer
string, else fall back on the device type. -/
def getPerformanceTier (env : Env) : Except Unit Quality := do
  let g1 ← getContext env ContextKind.webgl
  let gl ← match g1 with
    | some c => pure (some c)
    | none => getContext env ContextKind.experimental
  match gl with
  | none => pure Quality.low
  | some _ =>
      match env.debugRenderer with
      | some r =>
          let renderer := r.data.map Char.toLower
          if containsSub "nvidia".data renderer &&
             (containsSub "rtx".data renderer || containsSub "gtx".data renderer) then
            pure Quality.high
          else if containsSub "intel".data renderer || containsSub "amd".data renderer then
            pure Quality.medium
          else
            pure (fallbackTier env)
      | none => pure (fallbackTier env)

/-- `BrowserCompatibilityChecker.checkWebGLSupport()`: every context
request is wrapped in try/catch, degrading to `null`; outside a browser
environment it returns the all-false record. It never raises. -/
def checkWebGLSupport (env : Env) : WebGLSupport :=
  if !env.isBrowser then
    { webgl1 := false, webgl2 := false, maxTextureSize := 0,
      maxVertexAttribs := 0, extensions := [] }
  else
    let gl2 : Option Unit :=
      match getContext env ContextKind.webgl2 with
      | Except.error _ => none
      | Except.ok o => o
    let gl1 : Option Unit :=
      match getContext env ContextKind.webgl with
      | Except.error _ => none
      | Except.ok (some c) => some c
      | Except.ok none =>
          match getContext env ContextKind.experimental with
          | Except.error _ => none
          | Except.ok o => o
    let params : ℤ × ℤ × List String :=
      match gl2 with
      | some _ => (env.maxTextureSize, env.maxVertexAttribs, env.extensions)
      | none =>
          match gl1 with
          | some _ => (env.maxTextureSize, env.maxVertexAttribs, env.extensions)
          | none => (0, 0, [])
    { webgl1 := gl1.isSome, webgl2 := gl2.isSome,
      maxTextureSize := params.1, maxVertexAttribs := params.2.1,
      extensions := params.2.2 }

/- ------------------------------------------------------------------
   ResponsiveWrapper.detectCapabilities and the cold-start quality
   ------------------------------------------------------------------ -/

/-- Graphics-API tier vocabulary of the device profile. -/
inductive GraphicsTier
  | none
  | basic
  | advanced
deriving DecidableEq, Repr

/-- Modelled from the spec: the source exposes only the `webgl1`/`webgl2`
booleans of `getWebGLSupport`; the spec's `graphicsTier` "maps to
presence/absence of the two graphics-API generations available
in-browser", so the newer generation yields `advanced`, only the older
one `basic`, and neither `none`. -/
def graphicsTier (w : WebGLSupport) : GraphicsTier :=
  if w.webgl2 then GraphicsTier.advanced
  else if w.webgl1 then GraphicsTier.basic
  else GraphicsTier.none

/-- `canRun3DExperience` from `ResponsiveWrapper`: requires webgl1, a
texture dimension of at least 1024, not (mobile ∧ low tier), and a
screen of at least 480×320. -/
def canRun3DExperience (env : Env) (w : WebGLSupport) (tier : Quality) : Bool :=
  if !w.webgl1 then false
  else if w.maxTextureSize < 1024 then false
  else if getDeviceType env = DeviceType.mobile ∧ tier = Quality.low then false
  else if env.screenWidth < 480 ∨ env.screenHeight < 320 then false
  else true

/-- The member names of the object literal passed to zustand's `create`
in the scene-store module.  There is no `setPerformance` among them. -/
def sceneStoreKeys : List String :=
  ["player", "performance", "ui",
   "setPlayerPosition", "setPlayerRotation", "setPlayerVelocity",
   "setPlayerMoving", "setPlayerJumping", "setCameraMode",
   "setFPS", "setQuality", "setAutoQuality",
   "setShowHUD", "setShowMenu", "setShowLoading", "setLoadingProgress",
   "setActiveHologram", "setPointerLocked",
   "resetPlayer", "toggleMenu", "toggleHUD"]

/-- Whether the scene store exposes a `setPerformance` member (it does
not). -/
def sceneStoreHasSetPerformance : Bool := sceneStoreKeys.contains "setPerformance"

/-- Effect of `ResponsiveWrapper.detectCapabilities` on the shared
performance state.  It probes the device, then calls
`setPerformance({ quality: can3D ? performanceTier : 'low', fps: 60 })`
— but `setPerformance` is destructured from a store that defines no such
member; the resulting TypeError is swallowed by the surrounding
try/catch ("ignore if store signature differs"), so the assignment takes
effect only if the store had that setter.  A probe that throws lands in
the outer catch ("fail gracefully"), which also leaves the store
untouched. -/
def detectCapabilitiesPerf (env : Env) (s : PerformanceState) : PerformanceState :=
  match getWebGLSupport env, getPerformanceTier env with
  | Except.ok w, Except.ok tier =>
      let can3D := canRun3DExperience env w tier
      if sceneStoreHasSetPerformance then
        { s with quality := if can3D then tier else Quality.low, fps := 60 }
      else s
  | _, _ => s

/-- A plain desktop browser: desktop user agent, both context
generations available, no unmasked-renderer extension exposed. -/
def desktopEnv : Env :=
  { userAgent := "mozilla/5.0 (windows nt 10.0; win64; x64) applewebkit/537.36 chrome/120",
    isBrowser := true, contextThrows := false,
    webgl1Available := true, webgl2Available := true, experimentalAvailable := true,
    maxTextureSize := 4096, maxVertexAttribs := 16, extensions := [],
    debugRenderer := none, screenWidth := 1920, screenHeight := 1080 }

/-- An environment whose graphics-context creation throws. -/
def throwingEnv : Env :=
  { desktopEnv with contextThrows := true }

/-- A browser whose context creation returns `null` for every kind
(graphics unavailable without throwing). -/
def noGLEnv : Env :=
  { desktopEnv with webgl1Available := false, webgl2Available := false,
                    experimentalAvailable := false }

/- ------------------------------------------------------------------
   ObjectPool (src/unnamed part)
   ------------------------------------------------------------------ -/

/-- `ObjectPool.release(obj)`: `try { resetFn(obj); pool.push(obj) }
catch { /* ignore reset errors */ }`.  The reset function is modelled as
`T → Option T` (`none` = it threw); on success the reset object is
appended to the free list, on failure the list is unchanged and the
item is dropped.  The function is total: the exception never escapes. -/
def poolRelease {T : Type} (resetFn : T → Option T) (pool : List T) (obj : T) : List T :=
  match resetFn obj with
  | some r => pool ++ [r]
  | none => pool

/-- `ObjectPool.get()`: pop the last free item, else build a fresh one. -/
def poolGet {T : Type} (createFn : Unit → T) (pool : List T) : T × List T :=
  match pool.getLast? with
  | some x => (x, pool.dropLast)
  | none => (createFn (), pool)

/-- `ObjectPool.clear()`. -/
def poolClear {T : Type} (_pool : List T) : List T := []

/- ------------------------------------------------------------------
   useFrustumCulling (src/unnamed part)
   ------------------------------------------------------------------ -/

/-- 3-vector over ℚ. -/
structure Vec3 where
  x : ℚ
  y : ℚ
  z : ℚ
deriving DecidableEq, Repr

/-- A frustum plane in Hesse normal form, as the rendering library
stores it. -/
structure Plane where
  nx : ℚ
  ny : ℚ
  nz : ℚ
  constant : ℚ
deriving DecidableEq, Repr

/-- Signed distance from a plane to a point. -/
def distanceToPoint (p : Plane) (v : Vec3) : ℚ :=
  p.nx * v.x + p.ny * v.y + p.nz * v.z + p.constant

/-- Bounding sphere. -/
structure Sphere where
  center : Vec3
  radius : ℚ
deriving DecidableEq, Repr

/-- `Frustum.intersectsSphere`: the sphere survives iff no plane has
`distanceToPoint(center) < -radius`. -/
def intersectsSphere (planes : List Plane) (s : Sphere) : Bool :=
  planes.all (fun p => decide (-s.radius ≤ distanceToPoint p s.center))

/-- Row-major 4×4 matrix. -/
structure Mat4 where
  n11 : ℚ
  n12 : ℚ
  n13 : ℚ
  n14 : ℚ
  n21 : ℚ
  n22 : ℚ
  n23 : ℚ
  n24 : ℚ
  n31 : ℚ
  n32 : ℚ
  n33 : ℚ
  n34 : ℚ
  n41 : ℚ
  n42 : ℚ
  n43 : ℚ
  n44 : ℚ
deriving DecidableEq, Repr

/-- `Vector3.applyMatrix4` with the perspective divide (over ℚ a zero
`w` divides to 0; the culling claims only need determinism). -/
def applyMatrix4 (m : Mat4) (v : Vec3) : Vec3 :=
  let w := m.n41 * v.x + m.n42 * v.y + m.n43 * v.z + m.n44
  let iw := 1 / w
  { x := (m.n11 * v.x + m.n12 * v.y + m.n13 * v.z + m.n14) * iw,
    y := (m.n21 * v.x + m.n22 * v.y + m.n23 * v.z + m.n24) * iw,
    z := (m.n31 * v.x + m.n32 * v.y + m.n33 * v.z + m.n34) * iw }

/-- Mesh geometry: a possibly not-yet-computed bounding sphere, and the
sphere the library's deterministic `computeBoundingSphere` would derive
from the vertex data (an external-collaborator computation, carried as
data). -/
structure BufferGeometry where
  boundingSphere : Option Sphere
  computedSphere : Sphere
deriving DecidableEq, Repr

/-- A cullable mesh: geometry, world transform, scale and the `visible`
flag the culler rewrites. -/
structure Mesh where
  geometry : BufferGeometry
  matrixWorld : Mat4
  scaleX : ℚ
  scaleY : ℚ
  scaleZ : ℚ
  visible : Bool
deriving DecidableEq, Repr

/-- Per-object body of `useFrustumCulling`'s traversal: lazily compute
and cache the bounding sphere, transform its center to world space,
scale the radius by the largest scale component, and set `visible` from
the sphere-vs-frustum test. -/
def cullMesh (planes : List Plane) (m : Mesh) : Mesh :=
  let geom :=
    if m.geometry.boundingSphere.isSome then m.geometry
    else { m.geometry with boundingSphere := some m.geometry.computedSphere }
  match geom.boundingSphere with
  | some sphere =>
      let worldCenter := applyMatrix4 m.matrixWorld sphere.center
      let worldSphere : Sphere :=
        { center := worldCenter,
          radius := sphere.radius * max m.scaleX (max m.scaleY m.scaleZ) }
      { m with geometry := geom, visible := intersectsSphere planes worldSphere }
  | none => { m with geometry := geom }

/-- One frame of `useFrustumCulling`: every mesh of the scene gets its
`visible` flag recomputed from the current frustum, independently. -/
def cull (planes : List Plane) (objects : List Mesh) : List Mesh :=
  objects.map (cullMesh planes)

/- ==================================================================
   Helper lemmas
   ================================================================== -/

/-- `round` of a nonnegative rational is nonnegative. -/
theorem round_nonneg_of_nonneg {x : ℚ} (h : 0 ≤ x) : 0 ≤ round x := by
  rw [round_eq]
  exact Int.floor_nonneg.2 (by linarith)

/-- `calculateMetrics` produces a nonnegative fps from a nonnegative
window and leaves the window unchanged. -/
theorem calcMetrics_inv (s : MonState) (h : ∀ d ∈ s.frameTimes, 0 ≤ d) :
    0 ≤ (calculateMetrics s).fps ∧ (calculateMetrics s).frameTimes = s.frameTimes := by
  have hsum : 0 ≤ s.frameTimes.sum := List.sum_nonneg h
  unfold calculateMetrics
  refine ⟨?_, rfl⟩
  apply round_nonneg_of_nonneg
  split_ifs with g1 g2 g3
  · positivity
  · rfl
  · positivity
  · rfl

/-- One `monUpdate` tick preserves nonnegativity of the window entries
and of the derived fps. -/
theorem mon_update_inv (s : MonState) (now : ℚ)
    (h1 : ∀ d ∈ s.frameTimes, 0 ≤ d) (h2 : 0 ≤ s.fps) :
    (∀ d ∈ (monUpdate s now).frameTimes, 0 ≤ d) ∧ 0 ≤ (monUpdate s now).fps := by
  have hdelta : 0 ≤ monDelta s.lastTime now := le_max_left 0 _
  have hft0 : ∀ d ∈ s.frameTimes ++ [monDelta s.lastTime now], 0 ≤ d := by
    intro d hd
    rcases List.mem_append.1 hd with hmem | hmem
    · exact h1 d hmem
    · simp at hmem; rw [hmem]; exact hdelta
  simp only [monUpdate]
  set ft := if 120 < (s.frameTimes ++ [monDelta s.lastTime now]).length
      then (s.frameTimes ++ [monDelta s.lastTime now]).tail
      else s.frameTimes ++ [monDelta s.lastTime now] with hftdef
  have hft : ∀ d ∈ ft, 0 ≤ d := by
    rw [hftdef]
    intro d hd
    split_ifs at hd
    · exact hft0 d (List.tail_subset _ hd)
    · exact hft0 d hd
  split_ifs with g
  · have hcm := calcMetrics_inv
      { s with lastTime := now, frameTimes := ft, frameCount := s.frameCount + 1 }
      (by simpa using hft)
    refine ⟨?_, hcm.1⟩
    rw [hcm.2]
    simpa using hft
  · exact ⟨by simpa using hft, h2⟩

/-- Running the monitor from a fresh start keeps the window nonnegative
and the derived fps nonnegative. -/
theorem mon_run_inv (t0 : ℚ) (ts : List ℚ) :
    (∀ d ∈ (monRun t0 ts).frameTimes, 0 ≤ d) ∧ 0 ≤ (monRun t0 ts).fps := by
  unfold monRun
  generalize hs : monStart t0 = s0
  have h0 : (∀ d ∈ s0.frameTimes, 0 ≤ d) ∧ 0 ≤ s0.fps := by
    rw [← hs]; exact ⟨by simp [monStart], by simp [monStart]⟩
  clear hs
  induction ts generalizing s0 with
  | nil => exact h0
  | cons t rest ih =>
      simp only [List.foldl_cons]
      exact ih _ ⟨(mon_update_inv s0 t h0.1 h0.2).1, (mon_update_inv s0 t h0.1 h0.2).2⟩

/-- `scanl` produces an `R`-chain whenever every step satisfies `R`. -/
theorem chain'_scanl {α β : Type} (R : α → α → Prop) (f : α → β → α)
    (h : ∀ a b, R a (f a b)) : ∀ (l : List β) (a : α), List.Chain' R (List.scanl f a l) := by
  intro l
  induction l with
  | nil => intro a; simp
  | cons b t ih =>
      intro a
      rw [List.scanl_cons, List.singleton_append, List.chain'_cons']
      refine ⟨?_, ih (f a b)⟩
      intro x hx
      cases t <;> simp [List.scanl] at hx <;> exact hx ▸ h a b

/-- One `adaptiveUpdate` evaluation never jumps between `low` and
`high` directly. -/
theorem adaptive_adjacent (target tol : ℚ) (a : Quality) (fps : ℚ) :
    adjacentOk a (adaptiveUpdate target tol a fps) := by
  unfold adaptiveUpdate
  split_ifs <;> cases a <;> simp [adjacentOk]

/-- One `setFPS` evaluation never moves the store's quality between
`low` and `high` directly. -/
theorem setFPS_adjacent (s : SceneState) (fps : ℚ) :
    adjacentOk s.performance.quality ((setFPS s fps).performance.quality) := by
  simp only [setFPS]
  split_ifs <;> simp_all [adjacentOk]

/-- A culled mesh is a fixed point of the per-mesh culling body. -/
theorem cullMesh_idem (planes : List Plane) (m : Mesh) :
    cullMesh planes (cullMesh planes m) = cullMesh planes m := by
  unfold cullMesh
  cases h : m.geometry.boundingSphere <;> simp [h]

/- ==================================================================
   Claim theorems
   ================================================================== -/

/-- **C1** LOD hysteresis stability: for a single threshold `T = 20`
with `hysteresisFactor = 0.1` under the neutral `medium` multiplier,
any camera distance strictly inside `(18, 22)` leaves either committed
level unchanged; the switch to the lower-detail level 1 commits exactly
when the distance exceeds `22 = 20·(1+0.1)`, and the switch back to
level 0 commits exactly when it falls below `18 = 20·(1−0.1)`. -/
theorem lod_hysteresis_stability (d : ℚ) :
    (18 < d → d < 22 →
      lodUpdate Quality.medium [20] (1/10) 2 0 d = 0 ∧
      lodUpdate Quality.medium [20] (1/10) 2 1 d = 1) ∧
    (lodUpdate Quality.medium [20] (1/10) 2 0 d = 1 ↔ 22 < d) ∧
    (lodUpdate Quality.medium [20] (1/10) 2 1 d = 0 ↔ d < 18) := by
  simp only [lodUpdate, computeNewLOD, computeNewLODAux, qualityMultiplier, List.map,
    List.length, List.getD]
  norm_num
  split_ifs with h1 h2 h3 h4 h5 <;> simp_all <;> (try constructor) <;> intros <;> linarith

/-- Witness for C1 at the oscillation midpoint `d = 20`. -/
theorem lod_hysteresis_stability_witness :
    (18:ℚ) < 20 ∧ (20:ℚ) < 22 ∧
    lodUpdate Quality.medium [20] (1/10) 2 0 20 = 0 ∧
    lodUpdate Quality.medium [20] (1/10) 2 1 20 = 1 :=
  ⟨by norm_num, by norm_num,
   ((lod_hysteresis_stability 20).1 (by norm_num) (by norm_num)).1,
   ((lod_hysteresis_stability 20).1 (by norm_num) (by norm_num)).2⟩

/-- **C2** Quality-tier adjustment: for every current tier and every
aggregate fps sample, one `adaptiveQuality.update` evaluation steps the
tier down exactly one step when `fps < targetFps − tolerance`, up
exactly one step when `fps > targetFps + tolerance`, and leaves it
unchanged inside the band (for any nonnegative tolerance; the source
uses 60 ± 5). -/
theorem quality_tier_adjustment_step (target tolerance fps : ℚ) (cur : Quality)
    (htol : 0 ≤ tolerance) :
    (fps < target - tolerance → adaptiveUpdate target tolerance cur fps = qStepDown cur) ∧
    (target + tolerance < fps → adaptiveUpdate target tolerance cur fps = qStepUp cur) ∧
    (target - tolerance ≤ fps → fps ≤ target + tolerance →
      adaptiveUpdate target tolerance cur fps = cur) := by
  unfold adaptiveUpdate qStepDown qStepUp
  refine ⟨?_, ?_, ?_⟩ <;> intro h <;> (try intro h2) <;> split_ifs <;>
    first | rfl | (cases cur <;> rfl) | linarith

/-- Witness for C2 with the source's `target = 60`, `tolerance = 5`:
fps 50 steps `high` down to `medium`. -/
theorem quality_tier_adjustment_step_witness :
    (0:ℚ) ≤ 5 ∧ (50:ℚ) < 60 - 5 ∧
    adaptiveUpdate 60 5 Quality.high 50 = Quality.medium :=
  ⟨by norm_num, by norm_num,
   (quality_tier_adjustment_step 60 5 50 Quality.high (by norm_num)).1 (by norm_num)⟩

/-- **C3** No direct low↔high jump: from any initial tier, the tier
trajectory under any sequence of fps samples — both for
`adaptiveQuality.update` and for the store's `setFPS` auto-adjustment —
never contains an adjacent pair (low, high) or (high, low). -/
theorem quality_tier_no_skip (target tol : ℚ) (init : Quality) (samples : List ℚ)
    (s0 : SceneState) (fpsSeq : List ℚ) :
    List.Chain' adjacentOk (List.scanl (adaptiveUpdate target tol) init samples) ∧
    List.Chain' adjacentOk ((List.scanl setFPS s0 fpsSeq).map
      (fun s => s.performance.quality)) := by
  constructor
  · exact chain'_scanl _ _ (fun a b => adaptive_adjacent target tol a b) samples init
  · rw [List.chain'_map]
    exact chain'_scanl _ _ (fun a b => setFPS_adjacent a b) fpsSeq s0

/-- **C4 counterexample**: with thresholds `[20, 50]`, tier `medium`
(multiplier 1.0) and the component's default hysteresis 0.1, the first
evaluation from the initial committed level 0 at camera distance 35
does *not* yield level 1 as the claim states: the hysteresis gate is
applied from the very first frame, using `adjustedDistances[min newLOD
(len−1)] = 50` widened to 55, which 35 does not exceed. -/
theorem lod_first_assignment_counterexample :
    lodUpdate Quality.medium [20, 50] (1/10) 3 0 35 ≠ 1 := by
  norm_num [lodUpdate, computeNewLOD, computeNewLODAux, qualityMultiplier]

/-- **C4 amended**: on the first evaluation the committed level starts
at 0 and hysteresis already applies: distance 10 keeps level 0,
distance 35 also keeps level 0 (the change to level 1 is blocked by the
widened threshold 55), and distance 80 commits level 2. -/
theorem lod_first_assignment_amended :
    lodUpdate Quality.medium [20, 50] (1/10) 3 0 10 = 0 ∧
    lodUpdate Quality.medium [20, 50] (1/10) 3 0 35 = 0 ∧
    lodUpdate Quality.medium [20, 50] (1/10) 3 0 80 = 2 := by
  refine ⟨?_, ?_, ?_⟩ <;>
    norm_num [lodUpdate, computeNewLOD, computeNewLODAux, qualityMultiplier]

/-- **C5 counterexample**: in an environment whose graphics-context
creation throws, `deviceCapabilities.getPerformanceTier` and
`getWebGLSupport` (which have no try/catch) propagate the exception
instead of returning a degraded profile — the probe *does* raise. -/
theorem probe_throwing_counterexample :
    getPerformanceTier throwingEnv = Except.error () ∧
    getWebGLSupport throwingEnv = Except.error () :=
  ⟨rfl, rfl⟩

/-- **C5 amended**: when context creation reports the context
unavailable *without throwing*, the probes degrade without raising:
`getWebGLSupport` reports no support (graphics tier none) and
`getPerformanceTier` returns `low`; and the browser-compatibility
checker `checkWebGLSupport` never raises even when context creation
throws, degrading to the all-false support record.  The
`deviceCapabilities` probes, however, propagate a thrown exception. -/
theorem probe_degraded_amended :
    (∀ env : Env, env.isBrowser = true → env.contextThrows = true →
      checkWebGLSupport env =
        { webgl1 := false, webgl2 := false, maxTextureSize := 0,
          maxVertexAttribs := 0, extensions := [] }) ∧
    (∀ env : Env, env.contextThrows = false → env.webgl1Available = false →
      env.webgl2Available = false → env.experimentalAvailable = false →
      getWebGLSupport env = Except.ok
        { webgl1 := false, webgl2 := false, maxTextureSize := 0,
          maxVertexAttribs := 0, extensions := [] } ∧
      getPerformanceTier env = Except.ok Quality.low) := by
  constructor
  · intro env h1 h2
    simp [checkWebGLSupport, getContext, h1, h2]
  · intro env h1 h2 h3 h4
    constructor
    · simp [getWebGLSupport, getContext, contextAvailable, h1, h2, h3, h4,
        Bind.bind, Except.bind, Pure.pure, Except.pure]
    · simp [getPerformanceTier, getContext, contextAvailable, h1, h2, h3, h4,
        Bind.bind, Except.bind, Pure.pure, Except.pure]

/-- Witness for C5 (amended) at the concrete throwing and no-GL
environments. -/
theorem probe_degraded_amended_witness :
    checkWebGLSupport throwingEnv =
      { webgl1 := false, webgl2 := false, maxTextureSize := 0,
        maxVertexAttribs := 0, extensions := [] } ∧
    getWebGLSupport noGLEnv = Except.ok
      { webgl1 := false, webgl2 := false, maxTextureSize := 0,
        maxVertexAttribs := 0, extensions := [] } ∧
    getPerformanceTier noGLEnv = Except.ok Quality.low :=
  ⟨probe_degraded_amended.1 throwingEnv rfl rfl,
   (probe_degraded_amended.2 noGLEnv rfl rfl rfl rfl).1,
   (probe_degraded_amended.2 noGLEnv rfl rfl rfl rfl).2⟩

/-- **C6 counterexample**: the rolling-window monitor clamps a
non-monotonic delta to 0 ms — not to "about 1 ms" (here the previous
timestamp is 100 and the current one 50, and the recorded delta is 0);
and the simpler `performanceMonitor.endFrame` applies no clamp at all:
on its 60th frame with a clock that ran backwards it derives a
*negative* fps of −6000. -/
theorem frame_delta_clamp_counterexample :
    monDelta 100 50 = 0 ∧ monDelta 100 50 < 1 ∧
    (endFrame { frameCount := 59, lastTime := 60, fps := 60, frameTime := 16 } 0 50).fps
      = -6000 ∧
    (endFrame { frameCount := 59, lastTime := 60, fps := 60, frameTime := 16 } 0 50).fps
      < 0 := by
  have hd : monDelta 100 50 = 0 := by
    rw [monDelta]; exact max_eq_left (by norm_num)
  refine ⟨hd, by rw [hd]; norm_num, ?_, ?_⟩
  · norm_num [endFrame, round_eq]
  · norm_num [endFrame, round_eq]

/-- **C6 amended**: in the rolling-window `PerformanceMonitor` the
per-frame delta is clamped to a minimum of 0 ms (it is `max 0 ·`, so it
is never negative and is exactly 0 whenever the timestamp does not
advance), and for every start time and every timestamp sequence —
including non-monotonic ones — the derived fps is a nonnegative
(finite) integer, the zero-average case being guarded to fps 0. -/
theorem frame_delta_clamp_amended :
    (∀ t0 : ℚ, ∀ ts : List ℚ, 0 ≤ (monRun t0 ts).fps) ∧
    (∀ lastTime now : ℚ, 0 ≤ monDelta lastTime now ∧
      (now ≤ lastTime → monDelta lastTime now = 0)) := by
  constructor
  · intro t0 ts
    exact (mon_run_inv t0 ts).2
  · intro lastTime now
    refine ⟨le_max_left 0 _, fun h => ?_⟩
    rw [monDelta]
    exact max_eq_left (by linarith)

/-- Witness for C6 (amended): a backwards jump from 100 to 50 gives a
zero delta, and a short non-monotonic run keeps fps nonnegative. -/
theorem frame_delta_clamp_amended_witness :
    0 ≤ (monRun 0 [10, 5, 20]).fps ∧ 0 ≤ monDelta 100 50 ∧
    ((50:ℚ) ≤ 100 ∧ monDelta 100 50 = 0) :=
  ⟨frame_delta_clamp_amended.1 0 [10, 5, 20],
   (frame_delta_clamp_amended.2 100 50).1,
   by norm_num, (frame_delta_clamp_amended.2 100 50).2 (by norm_num)⟩

/-- **C7** Cold start on a plain desktop (both context generations
available, no unmasked-renderer info): the profile reports device class
`desktop` and graphics tier `advanced`, but `getPerformanceTier`
reports `medium`, while the shared performance state keeps its initial
quality `high` — `ResponsiveWrapper.detectCapabilities` calls a
`setPerformance` setter the scene store does not define, the TypeError
is swallowed, and the intended `quality := performanceTier` assignment
never lands.  The claim's equality of initial quality and profile
performance tier fails. -/
theorem cold_start_quality_divergence :
    getDeviceType desktopEnv = DeviceType.desktop ∧
    getWebGLSupport desktopEnv = Except.ok
      { webgl1 := true, webgl2 := true, maxTextureSize := 4096,
        maxVertexAttribs := 16, extensions := [] } ∧
    graphicsTier
      { webgl1 := true, webgl2 := true, maxTextureSize := 4096,
        maxVertexAttribs := 16, extensions := [] } = GraphicsTier.advanced ∧
    getPerformanceTier desktopEnv = Except.ok Quality.medium ∧
    sceneStoreHasSetPerformance = false ∧
    detectCapabilitiesPerf desktopEnv initialPerformanceState = initialPerformanceState ∧
    initialPerformanceState.quality = Quality.high ∧
    Quality.high ≠ Quality.medium :=
  ⟨rfl, rfl, rfl, rfl, rfl, rfl, rfl, by decide⟩

/-- **C8** Pool release: if the reset function succeeds the (reset)
item is appended to the free list; if it throws, `release` still
returns normally (it is a total function) and the free list is exactly
the old one — the item is discarded and never re-enters it. -/
theorem pool_release_discard {T : Type} (resetFn : T → Option T) (pool : List T) (obj : T) :
    (∀ r, resetFn obj = some r → poolRelease resetFn pool obj = pool ++ [r]) ∧
    (resetFn obj = none → poolRelease resetFn pool obj = pool) := by
  constructor
  · intro r h; simp [poolRelease, h]
  · intro h; simp [poolRelease, h]

/-- Witness for C8 over an integer pool: a succeeding reset (to 0)
appends, a throwing reset leaves the free list untouched. -/
theorem pool_release_discard_witness :
    poolRelease (fun _ : ℤ => some 0) [1, 2] 5 = [1, 2, 0] ∧
    poolRelease (fun _ : ℤ => none) [1, 2] 5 = [1, 2] :=
  ⟨by simpa using (pool_release_discard (fun _ : ℤ => some 0) [1, 2] 5).1 0 rfl,
   (pool_release_discard (fun _ : ℤ => none) [1, 2] 5).2 rfl⟩

/-- **C9** The frustum culler is idempotent (a second pass with the
same frustum and unchanged objects returns the exact same meshes, in
particular the same `visible` flags) and order-independent (the result
for any object is `cullMesh` of that object alone, wherever it sits in
the list and whatever surrounds it). -/
theorem culler_idempotent_order_independent :
    (∀ (planes : List Plane) (objs : List Mesh),
      cull planes (cull planes objs) = cull planes objs) ∧
    (∀ (planes : List Plane) (l1 l2 : List Mesh) (o : Mesh),
      cull planes (l1 ++ o :: l2) =
        cull planes l1 ++ cullMesh planes o :: cull planes l2) := by
  constructor
  · intro planes objs
    unfold cull
    rw [List.map_map]
    exact List.map_congr_left (fun m _ => cullMesh_idem planes m)
  · intro planes l1 l2 o
    simp [cull]

/-- **C10** The performance setters of the scene store (`setFPS`,
`setQuality`, `setAutoQuality`) leave the `player` and `ui` sub-states
unchanged, for every prior store state and every argument. -/
theorem performance_setters_preserve_player_ui (s : SceneState) (fps : ℚ)
    (q : Quality) (b : Bool) :
    (setFPS s fps).player = s.player ∧ (setFPS s fps).ui = s.ui ∧
    (setQuality s q).player = s.player ∧ (setQuality s q).ui = s.ui ∧
    (setAutoQuality s b).player = s.player ∧ (setAutoQuality s b).ui = s.ui := by
  refine ⟨?_, ?_, ?_, ?_, ?_, ?_⟩ <;> rfl
